import Mathlib

/-!
Verification development for the magellan shape type model
(`src/python/magellan/types.py`).

The module defines three geometric entities (Point, PolyLine, Polygon),
one codec per entity (PointUDT, PolyLineUDT, PolygonUDT) with
`serialize` / `deserialize` / `fromJson`, a JSON envelope dispatcher
(`_inbound_shape_converter`), a JSON self-description (`jsonValue`) and a
one-time registration hook (`Shape.registerPicklers`).

The embedding models Python values with an inductive universe `PyVal`.
Floats are carried as their IEEE-754 binary64 bit pattern (a `Nat`); the
code performs no float arithmetic, only Python `==` comparisons, whose
IEEE semantics (NaN is unequal to everything including itself, +0.0 equals
-0.0, ints compare numerically with floats) are modelled exactly via the
exact rational value of a finite float.
-/

namespace Magellan

/-- Universe of the Python values this module constructs and consumes.
`list` models both Python lists and tuples (the codecs only use length,
integer indexing and iteration, which agree on the two).  `float` carries
the IEEE-754 binary64 bit pattern.  `point`, `polyline`, `polygon` are the
instances of the three shape classes: `point` stores the constructor
arguments `x`, `y`; the other two store the constructor arguments
`indices`, `points` exactly as given (the Python constructors perform no
coercion). -/
inductive PyVal where
  | int (n : Int)
  | float (bits : Nat)
  | str (s : String)
  | list (xs : List PyVal)
  | dict (fields : List (String × PyVal))
  | point (x y : PyVal)
  | polyline (indices points : PyVal)
  | polygon (indices points : PyVal)

/-- Sign bit of an IEEE-754 binary64 bit pattern. -/
def floatSign (bits : Nat) : Bool := bits / 2 ^ 63 % 2 == 1

/-- Biased exponent field (11 bits) of a binary64 bit pattern. -/
def floatExpField (bits : Nat) : Nat := bits / 2 ^ 52 % 2 ^ 11

/-- Mantissa field (52 bits) of a binary64 bit pattern. -/
def floatMantissa (bits : Nat) : Nat := bits % 2 ^ 52

/-- NaN: exponent field all ones, nonzero mantissa. -/
def floatIsNaN (bits : Nat) : Bool :=
  floatExpField bits == 2047 && floatMantissa bits != 0

/-- Infinity: exponent field all ones, zero mantissa. -/
def floatIsInf (bits : Nat) : Bool :=
  floatExpField bits == 2047 && floatMantissa bits == 0

/-- Exact value of a finite binary64, scaled by 2^1075 to an integer.
The real value of a normal float is (-1)^s * (2^52 + m) * 2^(e-1075) and
of a subnormal is (-1)^s * m * 2^(-1074) = (-1)^s * 2*m * 2^(-1075), so
every finite binary64 value is `floatScaledVal bits / 2^1075` exactly;
two finite floats (or a float and an int) are numerically equal iff
their 2^1075-scaled values are equal as integers. -/
def floatScaledVal (bits : Nat) : Int :=
  let mag : Nat :=
    if floatExpField bits == 0 then 2 * floatMantissa bits
    else (2 ^ 52 + floatMantissa bits) * 2 ^ floatExpField bits
  if floatSign bits then -(mag : Int) else (mag : Int)

/-- Zero (of either sign): zero exponent field and zero mantissa. -/
def floatIsZero (bits : Nat) : Bool :=
  floatExpField bits == 0 && floatMantissa bits == 0

/-- IEEE-754 equality on binary64 bit patterns, as used by Python `==`:
NaN compares unequal to everything (itself included), +0.0 equals -0.0,
infinities compare by sign, finite floats compare by exact value.  A
finite binary64 representation is unique (subnormals end strictly below
the smallest normal), so two finite floats are numerically equal iff
their bit patterns coincide or both are zeros. -/
def floatEqIEEE (a b : Nat) : Bool :=
  if floatIsNaN a || floatIsNaN b then false
  else if floatIsInf a || floatIsInf b then
    floatIsInf a && floatIsInf b && floatSign a == floatSign b
  else a == b || (floatIsZero a && floatIsZero b)

mutual

/-- Python `==` on the modelled values.  Numbers compare numerically
across `int`/`float`; strings and lists compare structurally (elementwise
`==`); `point` values use `Point.__eq__` from the source (`isinstance`
check plus `==` on both coordinates); `polyline`/`polygon` define no
`__eq__` in the source, so Python falls back to object identity — object
identity of two separately constructed values is false, which is the
catch-all here (identity of one and the same binding is not representable
in a pure embedding and is never compared in this development).  Dicts are
compared fieldwise in order (all dicts compared in this development have
their fields in identical order). -/
def pyEq : PyVal → PyVal → Bool
  | .int a, .int b => a == b
  | .int a, .float b =>
      !floatIsNaN b && !floatIsInf b && floatScaledVal b == a * 2 ^ 1075
  | .float a, .int b =>
      !floatIsNaN a && !floatIsInf a && floatScaledVal a == b * 2 ^ 1075
  | .float a, .float b => floatEqIEEE a b
  | .str a, .str b => a == b
  | .list a, .list b => pyEqList a b
  | .dict a, .dict b => pyEqFields a b
  | .point x y, .point x2 y2 => pyEq x x2 && pyEq y y2
  | _, _ => false

/-- Elementwise Python `==` on sequences. -/
def pyEqList : List PyVal → List PyVal → Bool
  | [], [] => true
  | a :: as, b :: bs => pyEq a b && pyEqList as bs
  | _, _ => false

/-- Fieldwise Python `==` on dict entries. -/
def pyEqFields : List (String × PyVal) → List (String × PyVal) → Bool
  | [], [] => true
  | (k, v) :: as, (k2, v2) :: bs => k == k2 && pyEq v v2 && pyEqFields as bs
  | _, _ => false

end

mutual

/-- Python `str()` on the modelled values.  Partial (`Option`): the
rendering of a `float` is CPython's shortest round-trip decimal literal,
which is not reproduced here, so a value containing a float leaf renders
to `none`; every theorem below keeps the float leaves abstract or avoids
them.  `point` renders through `Point.__str__` from the source
(`"Point (" + str(x) + "," + str(y) + ")"`); `polyline` and `polygon`
render through their `__str__`, which builds
`"[" + ",".join(str over indices) + "]"` and the same over points and
joins the two inside a `"Polygon ("` prefix — verbatim that prefix in
BOTH classes (the `PolyLine.__str__` source reuses the literal
`"Polygon ("`).  Their `__str__` iterates the `indices`/`points` fields;
only list-valued fields are rendered here (iterating another iterable, or
a `TypeError` from a non-iterable field, is folded to `none`).  Lists and
dicts themselves render with `repr` of their elements in CPython, which
is not needed by any theorem and is also folded to `none`. -/
def pyStr : PyVal → Option String
  | .int n => some (toString n)
  | .float _ => none
  | .str s => some s
  | .list _ => none
  | .dict _ => none
  | .point x y =>
      match pyStr x, pyStr y with
      | some sx, some sy => some ("Point (" ++ sx ++ "," ++ sy ++ ")")
      | _, _ => none
  | .polyline i p =>
      match i, p with
      | .list is, .list ps =>
          match pyStrList is, pyStrList ps with
          | some rs, some qs =>
              some ("Polygon (" ++ "[" ++ String.intercalate "," rs ++ "]"
                ++ "," ++ "[" ++ String.intercalate "," qs ++ "]" ++ ")")
          | _, _ => none
      | _, _ => none
  | .polygon i p =>
      match i, p with
      | .list is, .list ps =>
          match pyStrList is, pyStrList ps with
          | some rs, some qs =>
              some ("Polygon (" ++ "[" ++ String.intercalate "," rs ++ "]"
                ++ "," ++ "[" ++ String.intercalate "," qs ++ "]" ++ ")")
          | _, _ => none
      | _, _ => none

/-- `str()` of each element of a sequence, as in
`[str(v) for v in xs]`. -/
def pyStrList : List PyVal → Option (List String)
  | [] => some []
  | x :: xs =>
      match pyStr x, pyStrList xs with
      | some s, some ss => some (s :: ss)
      | _, _ => none

end

/-- Errors raised by the modelled operations.  `assertionError` is a
failed Python `assert` and carries the exact message (this is what the
spec's taxonomy calls ValidationError); `cannotSerialize` is the
`TypeError("cannot serialize %r of type %r" % (obj, type(obj)))` raised
by `serialize` — the offending value is carried structurally, and the
CPython message is formatted from its `repr` and type (the spec's
InvalidArgument); `lenTypeError` is the `TypeError` from `len()` on a
value with no length; `notSubscriptable`, `indexError`, `intKeyError`,
`keyError`, `notIterable` are the corresponding subscription/iteration
errors; `resolutionError` is the `ImportError`/`AttributeError` from the
dynamic dispatch in `_inbound_shape_converter` (the spec's
ResolutionError) and carries the qualified name that failed to resolve. -/
inductive PyErr where
  | assertionError (msg : String)
  | cannotSerialize (v : PyVal)
  | lenTypeError (v : PyVal)
  | notSubscriptable (v : PyVal)
  | indexError (i : Nat)
  | intKeyError (i : Nat)
  | keyError (k : String)
  | notIterable (v : PyVal)
  | resolutionError (qualifiedName : String)

/-- Python `len()`.  Defined on sequences, strings and dicts; `none`
means `len` raises `TypeError`. -/
def pyLen : PyVal → Option Nat
  | .list xs => some xs.length
  | .str s => some s.length
  | .dict fs => some fs.length
  | _ => none

/-- Python `v[i]` for an integer index: element of a sequence, one-char
string of a string, `KeyError` on a dict (its keys here are strings),
`TypeError` otherwise. -/
def pyGetItem (v : PyVal) (i : Nat) : Except PyErr PyVal :=
  match v with
  | .list xs =>
      match xs.get? i with
      | some x => .ok x
      | none => .error (.indexError i)
  | .str s =>
      match s.toList.get? i with
      | some c => .ok (.str (String.singleton c))
      | none => .error (.indexError i)
  | .dict _ => .error (.intKeyError i)
  | _ => .error (.notSubscriptable v)

/-- Python `v[k]` for a string key: dict lookup (first binding; every
dict built in this development has distinct keys), `KeyError` when the
key is absent, `TypeError` on non-dicts. -/
def pyGetKey (v : PyVal) (k : String) : Except PyErr PyVal :=
  match v with
  | .dict fields =>
      match fields.find? (fun kv => kv.1 == k) with
      | some kv => .ok kv.2
      | none => .error (.keyError k)
  | _ => .error (.notSubscriptable v)

/-- Python iteration (`for x in v`): the elements of a sequence, the
one-char strings of a string, the keys of a dict; `TypeError` otherwise. -/
def pyIter (v : PyVal) : Except PyErr (List PyVal) :=
  match v with
  | .list xs => .ok xs
  | .str s => .ok (s.toList.map (fun c => .str (String.singleton c)))
  | .dict fs => .ok (fs.map (fun kv => .str kv.1))
  | _ => .error (.notIterable v)

/-- `[f x for x in xs]` over a fallible `f`: first failure aborts the
comprehension. -/
def mapME (f : PyVal → Except PyErr PyVal) : List PyVal → Except PyErr (List PyVal)
  | [] => .ok []
  | x :: xs => do
      let y ← f x
      let ys ← mapME f xs
      .ok (y :: ys)

/-- `PointUDT.serialize` (types.py lines 73-80): identity passthrough for
a `Point` instance, otherwise
`raise TypeError("cannot serialize %r of type %r" % (obj, type(obj)))`. -/
def PointUDT.serialize (obj : PyVal) : Except PyErr PyVal :=
  match obj with
  | .point x y => .ok (.point x y)
  | _ => .error (.cannotSerialize obj)

/-- `PolygonUDT.serialize` (types.py lines 178-185): identity passthrough
for a `Polygon` instance, otherwise the same `TypeError`. -/
def PolygonUDT.serialize (obj : PyVal) : Except PyErr PyVal :=
  match obj with
  | .polygon i p => .ok (.polygon i p)
  | _ => .error (.cannotSerialize obj)

/-- `PolyLineUDT.serialize` (types.py lines 285-292): identity
passthrough for a `PolyLine` instance, otherwise the same `TypeError`. -/
def PolyLineUDT.serialize (obj : PyVal) : Except PyErr PyVal :=
  match obj with
  | .polyline i p => .ok (.polyline i p)
  | _ => .error (.cannotSerialize obj)

/-- `PointUDT.deserialize` (types.py lines 82-93): identity passthrough
for a `Point`; otherwise `assert len(datum) == 3` with message
`"PointUDT.deserialize given row with length %d but requires 3"`, then
`tpe = datum[0]`, `assert tpe == 1` with message
`"Point should have type = 1"`, then `Point(datum[1], datum[2])`. -/
def PointUDT.deserialize (datum : PyVal) : Except PyErr PyVal :=
  match datum with
  | .point x y => .ok (.point x y)
  | _ =>
    match pyLen datum with
    | none => .error (.lenTypeError datum)
    | some n =>
      if n == 3 then do
        let tpe ← pyGetItem datum 0
        if pyEq tpe (.int 1) then do
          let x ← pyGetItem datum 1
          let y ← pyGetItem datum 2
          .ok (.point x y)
        else .error (.assertionError "Point should have type = 1")
      else
        .error (.assertionError
          ("PointUDT.deserialize given row with length " ++ toString n
            ++ " but requires 3"))

/-- `PolygonUDT.deserialize` (types.py lines 187-198): identity
passthrough for a `Polygon`; otherwise `assert len(datum) == 3` with
message `"PolygonUDT.deserialize given row with length %d but requires
4"` (the `4` is verbatim from the source), `tpe = datum[0]`,
`assert tpe == 5` with message `"Polygon should have type = 5"`, then
`Polygon(datum[1], [self.pointUDT.deserialize(point) for point in
datum[2]])`. -/
def PolygonUDT.deserialize (datum : PyVal) : Except PyErr PyVal :=
  match datum with
  | .polygon i p => .ok (.polygon i p)
  | _ =>
    match pyLen datum with
    | none => .error (.lenTypeError datum)
    | some n =>
      if n == 3 then do
        let tpe ← pyGetItem datum 0
        if pyEq tpe (.int 5) then do
          let indices ← pyGetItem datum 1
          let rawPoints ← pyGetItem datum 2
          let elems ← pyIter rawPoints
          let pts ← mapME PointUDT.deserialize elems
          .ok (.polygon indices (.list pts))
        else .error (.assertionError "Polygon should have type = 5")
      else
        .error (.assertionError
          ("PolygonUDT.deserialize given row with length " ++ toString n
            ++ " but requires 4"))

/-- `PolyLineUDT.deserialize` (types.py lines 294-306): same shape as the
Polygon codec with tag 3, but the source additionally executes
`print datum` after the length assertion and before the tag check.  The
first component is the stdout trace: the list of values printed during
the call (CPython renders each with `str()` followed by a newline). -/
def PolyLineUDT.deserialize (datum : PyVal) : List PyVal × Except PyErr PyVal :=
  match datum with
  | .polyline i p => ([], .ok (.polyline i p))
  | _ =>
    match pyLen datum with
    | none => ([], .error (.lenTypeError datum))
    | some n =>
      if n == 3 then
        ([datum], do
          let tpe ← pyGetItem datum 0
          if pyEq tpe (.int 3) then do
            let indices ← pyGetItem datum 1
            let rawPoints ← pyGetItem datum 2
            let elems ← pyIter rawPoints
            let pts ← mapME PointUDT.deserialize elems
            .ok (.polyline indices (.list pts))
          else .error (.assertionError "PolyLine should have type = 3"))
      else
        ([], .error (.assertionError
          ("PolyLineUDT.deserialize given row with length " ++ toString n
            ++ " but requires 4")))

/-- `PointUDT.fromJson` (types.py lines 98-100), identical body to
`Point.fromJson` (lines 138-140): `Point(json['x'], json['y'])`. -/
def PointUDT.fromJson (j : PyVal) : Except PyErr PyVal := do
  let x ← pyGetKey j "x"
  let y ← pyGetKey j "y"
  .ok (.point x y)

/-- `PolygonUDT.fromJson` (types.py lines 203-207), identical body to
`Polygon.fromJson` (lines 242-246): `indices = json["indices"]`,
`points = [PointUDT.fromJson(point) for point in json["points"]]`,
`Polygon(indices, points)`. -/
def PolygonUDT.fromJson (j : PyVal) : Except PyErr PyVal := do
  let indices ← pyGetKey j "indices"
  let rawPoints ← pyGetKey j "points"
  let elems ← pyIter rawPoints
  let pts ← mapME PointUDT.fromJson elems
  .ok (.polygon indices (.list pts))

/-- `PolyLineUDT.fromJson` (types.py lines 311-315), identical body to
`PolyLine.fromJson` (lines 346-350), building a `PolyLine`. -/
def PolyLineUDT.fromJson (j : PyVal) : Except PyErr PyVal := do
  let indices ← pyGetKey j "indices"
  let rawPoints ← pyGetKey j "points"
  let elems ← pyIter rawPoints
  let pts ← mapME PointUDT.fromJson elems
  .ok (.polyline indices (.list pts))

/-- Process-wide registration state.  `initialized` is the class-level
flag `Point.__initialized__` the guard reads and sets (all three shape
classes consult this single flag, inherited from `Shape`);
`registrations` counts how many times the underlying cross-runtime
registration (the reflective `EvaluatePython.registerPicklers` JVM call,
an external black box per the spec) has actually been performed. -/
structure RegState where
  initialized : Bool
  registrations : Nat
deriving DecidableEq

/-- `Shape.registerPicklers` (types.py lines 33-46): when
`Point.__initialized__` is false, perform the underlying registration and
set the flag; otherwise do nothing. -/
def Shape.registerPicklers (s : RegState) : RegState :=
  if s.initialized == false then
    { initialized := true, registrations := s.registrations + 1 }
  else s

/-- `Point.jsonValue` (types.py lines 142-147): calls
`self.registerPicklers()` then returns the fixed metadata mapping. -/
def Point.jsonValue (s : RegState) : RegState × PyVal :=
  (Shape.registerPicklers s,
    .dict [("type", .str "udt"),
           ("pyClass", .str "magellan.types.PointUDT"),
           ("class", .str "magellan.PointUDT"),
           ("sqlType", .str "magellan.Point")])

/-- `Polygon.jsonValue` (types.py lines 248-253). -/
def Polygon.jsonValue (s : RegState) : RegState × PyVal :=
  (Shape.registerPicklers s,
    .dict [("type", .str "udt"),
           ("pyClass", .str "magellan.types.PolygonUDT"),
           ("class", .str "magellan.Polygon"),
           ("sqlType", .str "magellan.Polygon")])

/-- `PolyLine.jsonValue` (types.py lines 352-357). -/
def PolyLine.jsonValue (s : RegState) : RegState × PyVal :=
  (Shape.registerPicklers s,
    .dict [("type", .str "udt"),
           ("pyClass", .str "magellan.types.PolyLineUDT"),
           ("class", .str "magellan.PolyLine"),
           ("sqlType", .str "magellan.PolyLine")])

/-- Index of the LAST occurrence of `c`, as Python `s.rfind(c)` (with
`none` for Python's `-1`). -/
def lastIndexOf (cs : List Char) (c : Char) : Option Nat :=
  match cs with
  | [] => none
  | a :: as =>
      match lastIndexOf as c with
      | some i => some (i + 1)
      | none => if a == c then some 0 else none

/-- The split `module = shapeType[:split]`, `shapeClass =
shapeType[split+1:]` around `split = shapeType.rfind(".")` (types.py
lines 363-365).  When no dot occurs, `rfind` returns -1 and the Python
slices yield the string without its last character and the whole string,
reproduced verbatim. -/
def qualSplit (s : String) : String × String :=
  let cs := s.toList
  match lastIndexOf cs '.' with
  | some i => (String.mk (cs.take i), String.mk (cs.drop (i + 1)))
  | none => (String.mk cs.dropLast, s)

/-- The module-level attributes of `magellan.types` that carry a
`fromJson` — the six shape/codec classes.  (`Shape` is also a module
attribute but has no `fromJson`; accessing it fails with
`AttributeError`, folded into resolution failure below.) -/
inductive ShapeClass where
  | pointUDT | polygonUDT | polyLineUDT
  | pointClass | polygonClass | polyLineClass

/-- The `__import__(module)` + `getattr(m, shapeClass)` resolution of
types.py lines 366-367, restricted to the dispatch targets: only the
module `"magellan.types"` resolves, and within it only the attributes
carrying a `fromJson`.  Any other qualified name fails (ImportError /
AttributeError — the spec's ResolutionError). -/
def moduleLookup (module attr : String) : Option ShapeClass :=
  if module == "magellan.types" then
    match attr with
    | "PointUDT" => some .pointUDT
    | "PolygonUDT" => some .polygonUDT
    | "PolyLineUDT" => some .polyLineUDT
    | "Point" => some .pointClass
    | "Polygon" => some .polygonClass
    | "PolyLine" => some .polyLineClass
    | _ => none
  else none

/-- Resolution of a full qualified name through `qualSplit`. -/
def resolveQualified (s : String) : Option ShapeClass :=
  moduleLookup (qualSplit s).1 (qualSplit s).2

/-- The `fromJson` of each resolvable class.  The shape classes'
`fromJson` bodies are character-for-character identical to their codec's
(see the source lines cited on the codec definitions). -/
def ShapeClass.fromJson : ShapeClass → PyVal → Except PyErr PyVal
  | .pointUDT => PointUDT.fromJson
  | .pointClass => PointUDT.fromJson
  | .polygonUDT => PolygonUDT.fromJson
  | .polygonClass => PolygonUDT.fromJson
  | .polyLineUDT => PolyLineUDT.fromJson
  | .polyLineClass => PolyLineUDT.fromJson

/-- `_inbound_shape_converter` (types.py lines 360-368), modelled past
the `json.loads` boundary: the input `j` is the parsed envelope (the
Python stdlib parser is an external black box; a malformed string fails
inside it with the spec's ParseError before this logic runs).  The
source takes `str(j["pyClass"])`, splits it at the last dot, resolves
the class in the module and returns `UDT.fromJson(j)` on the FULL parsed
object.  A `pyClass` value whose `str()` is unmodelled (it contains a
float leaf) renders to a decimal literal that can never name a module
attribute, so it is folded directly into the failing lookup. -/
def inbound_shape_converter (j : PyVal) : Except PyErr PyVal := do
  let pc ← pyGetKey j "pyClass"
  let shapeType := (pyStr pc).getD "<unmodelled rendering>"
  match resolveQualified shapeType with
  | some cls => cls.fromJson j
  | none => .error (.resolutionError shapeType)

/-- `isinstance(v, Point)`. -/
def isPointVal : PyVal → Bool
  | .point _ _ => true
  | _ => false

/-- `isinstance(v, Polygon)`. -/
def isPolygonVal : PyVal → Bool
  | .polygon _ _ => true
  | _ => false

/-- `isinstance(v, PolyLine)`. -/
def isPolylineVal : PyVal → Bool
  | .polyline _ _ => true
  | _ => false

@[simp] theorem exceptOk_bind {α β : Type} (a : α) (f : α → Except PyErr β) :
    (Except.ok a >>= f) = f a := rfl

@[simp] theorem exceptError_bind {α β : Type} (e : PyErr) (f : α → Except PyErr β) :
    ((Except.error e : Except PyErr α) >>= f) = Except.error e := rfl

theorem mapME_ok_get (f : PyVal → Except PyErr PyVal) :
    ∀ (xs ys : List PyVal), mapME f xs = .ok ys →
      ys.length = xs.length ∧
      ∀ i (hi : i < xs.length), ∃ hj : i < ys.length,
        f (xs.get ⟨i, hi⟩) = .ok (ys.get ⟨i, hj⟩) := by
  intro xs
  induction xs with
  | nil =>
      intro ys h
      cases h
      exact ⟨rfl, fun i hi => absurd hi (Nat.not_lt_zero i)⟩
  | cons x xs ih =>
      intro ys h
      cases hfx : f x with
      | error e => rw [mapME, hfx] at h; cases h
      | ok y =>
          cases hrest : mapME f xs with
          | error e => rw [mapME, hfx, hrest] at h; cases h
          | ok ys2 =>
              rw [mapME, hfx, hrest] at h
              cases h
              obtain ⟨hlen, hget⟩ := ih ys2 hrest
              refine ⟨by simp [hlen], ?_⟩
              intro i hi
              cases i with
              | zero => exact ⟨Nat.succ_pos ys2.length, hfx⟩
              | succ k =>
                  obtain ⟨hj, hk⟩ := hget k (Nat.lt_of_succ_lt_succ hi)
                  exact ⟨Nat.succ_lt_succ hj, hk⟩

/-- C1 counterexample: the claim fails for a Point with NaN coordinates.
Deserializing the triple `(1, nan, nan)` does yield `Point(nan, nan)`
with both bit patterns preserved exactly, but under `Point.__eq__`
(Python `==` on the coordinates, IEEE semantics) the result is NOT equal
to the original point: NaN is unequal to itself.  The bit pattern used
is the canonical quiet NaN 0x7FF8000000000000. -/
theorem C1_nan_counterexample :
    PointUDT.deserialize
        (.list [.int 1, .float 0x7FF8000000000000, .float 0x7FF8000000000000])
      = .ok (.point (.float 0x7FF8000000000000) (.float 0x7FF8000000000000)) ∧
    pyEq (.point (.float 0x7FF8000000000000) (.float 0x7FF8000000000000))
        (.point (.float 0x7FF8000000000000) (.float 0x7FF8000000000000)) = false := by
  exact ⟨rfl, by decide⟩

/-- C1 (amended): for every pair of coordinate values `x`, `y`,
`PointUDT.deserialize (1, x, y)` yields `Point(x, y)` with both fields
preserved exactly (structurally, hence bit-for-bit for floats); and
whenever each coordinate is equal to itself under Python `==` — true of
every float except NaN, and of every int and string — the result is
equal to the original point under `Point.__eq__`. -/
theorem C1_point_roundtrip (x y : PyVal)
    (hx : pyEq x x = true) (hy : pyEq y y = true) :
    PointUDT.deserialize (.list [.int 1, x, y]) = .ok (.point x y) ∧
    pyEq (.point x y) (.point x y) = true := by
  constructor
  · rfl
  · simp [pyEq, hx, hy]

/-- C1 witness: the amended round-trip at `Point(1.0, 2.0)` (bit
patterns 0x3FF0000000000000 and 0x4000000000000000). -/
theorem C1_point_roundtrip_witness :
    PointUDT.deserialize
        (.list [.int 1, .float 0x3FF0000000000000, .float 0x4000000000000000])
      = .ok (.point (.float 0x3FF0000000000000) (.float 0x4000000000000000)) ∧
    pyEq (.point (.float 0x3FF0000000000000) (.float 0x4000000000000000))
        (.point (.float 0x3FF0000000000000) (.float 0x4000000000000000)) = true :=
  C1_point_roundtrip (.float 0x3FF0000000000000) (.float 0x4000000000000000)
    (by decide) (by decide)

/-- C2: for every triple `(tag, indices, point-triples)` carrying the
variant's correct tag (5 for Polygon, 3 for PolyLine) whose point
entries each decode through the Point codec, deserializing yields an
entity whose `indices` field is the input indices value unchanged and
whose `points[i]` is exactly `PointUDT.deserialize(point-triples[i])`
for every index `i`.  (For the PolyLine codec the second projection is
the returned entity; the first is its stdout trace, see C8.) -/
theorem C2_poly_deserialize_roundtrip (idx : PyVal) (pts dec : List PyVal)
    (h : mapME PointUDT.deserialize pts = .ok dec) :
    PolygonUDT.deserialize (.list [.int 5, idx, .list pts])
      = .ok (.polygon idx (.list dec)) ∧
    (PolyLineUDT.deserialize (.list [.int 3, idx, .list pts])).2
      = .ok (.polyline idx (.list dec)) ∧
    ∀ i (hi : i < pts.length), ∃ hj : i < dec.length,
      PointUDT.deserialize (pts.get ⟨i, hi⟩) = .ok (dec.get ⟨i, hj⟩) := by
  refine ⟨?_, ?_, fun i hi => (mapME_ok_get PointUDT.deserialize pts dec h).2 i hi⟩
  · simp [PolygonUDT.deserialize, pyLen, pyGetItem, pyEq, pyIter, h]
  · simp [PolyLineUDT.deserialize, pyLen, pyGetItem, pyEq, pyIter, h]

/-- C2 witness: a polygon and polyline triple with indices `[0]` and one
point triple `(1, 1.5, -2.5)` (bit patterns of 1.5 and -2.5). -/
theorem C2_poly_deserialize_roundtrip_witness :
    PolygonUDT.deserialize
        (.list [.int 5, .list [.int 0],
          .list [.list [.int 1, .float 0x3FF8000000000000, .float 0xC004000000000000]]])
      = .ok (.polygon (.list [.int 0])
          (.list [.point (.float 0x3FF8000000000000) (.float 0xC004000000000000)])) ∧
    (PolyLineUDT.deserialize
        (.list [.int 3, .list [.int 0],
          .list [.list [.int 1, .float 0x3FF8000000000000, .float 0xC004000000000000]]])).2
      = .ok (.polyline (.list [.int 0])
          (.list [.point (.float 0x3FF8000000000000) (.float 0xC004000000000000)])) :=
  ⟨(C2_poly_deserialize_roundtrip (.list [.int 0])
      [.list [.int 1, .float 0x3FF8000000000000, .float 0xC004000000000000]]
      [.point (.float 0x3FF8000000000000) (.float 0xC004000000000000)] rfl).1,
   (C2_poly_deserialize_roundtrip (.list [.int 0])
      [.list [.int 1, .float 0x3FF8000000000000, .float 0xC004000000000000]]
      [.point (.float 0x3FF8000000000000) (.float 0xC004000000000000)] rfl).2.1⟩

/-- C3: on any sequence datum that is not a native entity, each codec's
deserialize fails the length assertion with a message naming the actual
length when the sequence does not have exactly 3 elements (the Python
`AssertionError` is the spec's ValidationError; the Polygon/PolyLine
messages end in the source's verbatim "requires 4"), and fails the tag
assertion whenever the first element is not `==` to that variant's own
discriminant — each codec's tag hypothesis is independent, so another
variant's tag (e.g. 1 given to the Polygon codec, or 5 given to the
Point codec) is covered; in particular
`PointUDT.deserialize((2, 1.0, 2.0))` fails with the tag-mismatch error
and `PointUDT.deserialize((1, 2, 3, 4))` fails with the wrong-arity
error naming length 4. -/
theorem C3_deserialize_validation (xs : List PyVal) (t1 t5 t3 : PyVal)
    (rest : List PyVal)
    (hlen : xs.length ≠ 3) (hrest : rest.length = 2)
    (h1 : pyEq t1 (.int 1) = false) (h5 : pyEq t5 (.int 5) = false)
    (h3 : pyEq t3 (.int 3) = false) :
    PointUDT.deserialize (.list xs) = .error (.assertionError
      ("PointUDT.deserialize given row with length " ++ toString xs.length
        ++ " but requires 3")) ∧
    PolygonUDT.deserialize (.list xs) = .error (.assertionError
      ("PolygonUDT.deserialize given row with length " ++ toString xs.length
        ++ " but requires 4")) ∧
    (PolyLineUDT.deserialize (.list xs)).2 = .error (.assertionError
      ("PolyLineUDT.deserialize given row with length " ++ toString xs.length
        ++ " but requires 4")) ∧
    PointUDT.deserialize (.list (t1 :: rest))
      = .error (.assertionError "Point should have type = 1") ∧
    PolygonUDT.deserialize (.list (t5 :: rest))
      = .error (.assertionError "Polygon should have type = 5") ∧
    (PolyLineUDT.deserialize (.list (t3 :: rest))).2
      = .error (.assertionError "PolyLine should have type = 3") ∧
    PointUDT.deserialize
        (.list [.int 2, .float 0x3FF0000000000000, .float 0x4000000000000000])
      = .error (.assertionError "Point should have type = 1") ∧
    PointUDT.deserialize (.list [.int 1, .int 2, .int 3, .int 4])
      = .error (.assertionError
          "PointUDT.deserialize given row with length 4 but requires 3") := by
  refine ⟨?_, ?_, ?_, ?_, ?_, ?_, rfl, rfl⟩ <;>
    simp [PointUDT.deserialize, PolygonUDT.deserialize, PolyLineUDT.deserialize,
      pyLen, pyGetItem, hlen, hrest, h1, h5, h3]

/-- C3 witness: the length hypothesis at a 2-element sequence, and the
tag hypotheses at cross-variant tags — the Point codec given tag 5, the
Polygon codec given tag 1, the PolyLine codec given tag 1. -/
theorem C3_deserialize_validation_witness :
    PointUDT.deserialize (.list [.int 1, .int 2])
      = .error (.assertionError
          "PointUDT.deserialize given row with length 2 but requires 3") ∧
    PointUDT.deserialize (.list [.int 5, .int 0, .int 0])
      = .error (.assertionError "Point should have type = 1") ∧
    PolygonUDT.deserialize (.list [.int 1, .int 0, .int 0])
      = .error (.assertionError "Polygon should have type = 5") ∧
    (PolyLineUDT.deserialize (.list [.int 1, .int 0, .int 0])).2
      = .error (.assertionError "PolyLine should have type = 3") :=
  ⟨(C3_deserialize_validation [.int 1, .int 2] (.int 5) (.int 1) (.int 1)
      [.int 0, .int 0] (by decide) rfl (by decide) (by decide) (by decide)).1,
   (C3_deserialize_validation [.int 1, .int 2] (.int 5) (.int 1) (.int 1)
      [.int 0, .int 0] (by decide) rfl (by decide) (by decide) (by decide)).2.2.2.1,
   (C3_deserialize_validation [.int 1, .int 2] (.int 5) (.int 1) (.int 1)
      [.int 0, .int 0] (by decide) rfl (by decide) (by decide) (by decide)).2.2.2.2.1,
   (C3_deserialize_validation [.int 1, .int 2] (.int 5) (.int 1) (.int 1)
      [.int 0, .int 0] (by decide) rfl (by decide) (by decide) (by decide)).2.2.2.2.2.1⟩

/-- C4: each codec's serialize is an identity passthrough on a value of
its native shape; on every other value it fails with the
`TypeError("cannot serialize %r of type %r" ...)` carrying the
unexpected value (from which CPython formats its repr and its type —
the spec's InvalidArgument); and serialize never returns a value
different from its input. -/
theorem C4_serialize_passthrough (v w : PyVal) :
    (isPointVal v = true → PointUDT.serialize v = .ok v) ∧
    (isPointVal v = false →
      PointUDT.serialize v = .error (.cannotSerialize v)) ∧
    (PointUDT.serialize v = .ok w → w = v) ∧
    (isPolygonVal v = true → PolygonUDT.serialize v = .ok v) ∧
    (isPolygonVal v = false →
      PolygonUDT.serialize v = .error (.cannotSerialize v)) ∧
    (PolygonUDT.serialize v = .ok w → w = v) ∧
    (isPolylineVal v = true → PolyLineUDT.serialize v = .ok v) ∧
    (isPolylineVal v = false →
      PolyLineUDT.serialize v = .error (.cannotSerialize v)) ∧
    (PolyLineUDT.serialize v = .ok w → w = v) := by
  cases v <;>
    simp [PointUDT.serialize, PolygonUDT.serialize, PolyLineUDT.serialize,
      isPointVal, isPolygonVal, isPolylineVal] <;>
    (intro h; exact h.symm)

/-- C4 witness: identity passthrough on `Point(1, 2)` and the carried
`TypeError` on the string "not a point". -/
theorem C4_serialize_passthrough_witness :
    PointUDT.serialize (.point (.int 1) (.int 2))
      = .ok (.point (.int 1) (.int 2)) ∧
    PointUDT.serialize (.str "not a point")
      = .error (.cannotSerialize (.str "not a point")) :=
  ⟨(C4_serialize_passthrough (.point (.int 1) (.int 2))
      (.point (.int 1) (.int 2))).1 rfl,
   (C4_serialize_passthrough (.str "not a point") (.str "not a point")).2.1 rfl⟩

/-- C5 counterexample: for the Point variant the claim fails — the
returned mapping's "class" key holds "magellan.PointUDT" while its
"sqlType" key holds "magellan.Point", which are not the same name. -/
theorem C5_point_class_sqlType_differ :
    pyGetKey (Point.jsonValue ⟨false, 0⟩).2 "class"
      = .ok (.str "magellan.PointUDT") ∧
    pyGetKey (Point.jsonValue ⟨false, 0⟩).2 "sqlType"
      = .ok (.str "magellan.Point") ∧
    ("magellan.PointUDT" : String) ≠ "magellan.Point" :=
  ⟨rfl, rfl, by decide⟩

/-- C5 (amended): for every shape variant and any registration state,
`jsonValue()` returns a mapping whose "type" key is "udt" and whose
"pyClass" key is the python module path of the variant's codec class;
for Polygon and PolyLine the "class" and "sqlType" keys both hold the
same engine-native qualified name of the variant, while for Point
"class" holds the engine-native codec name "magellan.PointUDT" and
"sqlType" holds the variant name "magellan.Point". -/
theorem C5_jsonValue_metadata (s : RegState) :
    pyGetKey (Point.jsonValue s).2 "type" = .ok (.str "udt") ∧
    pyGetKey (Point.jsonValue s).2 "pyClass"
      = .ok (.str "magellan.types.PointUDT") ∧
    pyGetKey (Point.jsonValue s).2 "class" = .ok (.str "magellan.PointUDT") ∧
    pyGetKey (Point.jsonValue s).2 "sqlType" = .ok (.str "magellan.Point") ∧
    pyGetKey (Polygon.jsonValue s).2 "type" = .ok (.str "udt") ∧
    pyGetKey (Polygon.jsonValue s).2 "pyClass"
      = .ok (.str "magellan.types.PolygonUDT") ∧
    pyGetKey (Polygon.jsonValue s).2 "class" = .ok (.str "magellan.Polygon") ∧
    pyGetKey (Polygon.jsonValue s).2 "sqlType" = .ok (.str "magellan.Polygon") ∧
    pyGetKey (PolyLine.jsonValue s).2 "type" = .ok (.str "udt") ∧
    pyGetKey (PolyLine.jsonValue s).2 "pyClass"
      = .ok (.str "magellan.types.PolyLineUDT") ∧
    pyGetKey (PolyLine.jsonValue s).2 "class" = .ok (.str "magellan.PolyLine") ∧
    pyGetKey (PolyLine.jsonValue s).2 "sqlType"
      = .ok (.str "magellan.PolyLine") :=
  ⟨rfl, rfl, rfl, rfl, rfl, rfl, rfl, rfl, rfl, rfl, rfl, rfl⟩

/-- C6: for every parsed JSON envelope whose "pyClass" value is a string
resolving (split at its last dot, module then attribute) to one of the
shape codec classes, `_inbound_shape_converter` returns that class's
`fromJson` applied to the full parsed object; and when the resolved
class is the Polygon codec and the envelope carries `indices` and a
`points` array of decodable point objects, the result is a Polygon whose
indices value is the envelope's and whose points list has the same
length as the envelope's points array.  (`json.loads` is the external
stdlib parser; the envelope is taken here already parsed, and a
malformed string fails inside the parser before this logic runs.) -/
theorem C6_inbound_dispatch (j : PyVal) (s : String) (c : ShapeClass)
    (idx : PyVal) (ptsJson decJ : List PyVal)
    (hpc : pyGetKey j "pyClass" = .ok (.str s))
    (hres : resolveQualified s = some c) :
    inbound_shape_converter j = ShapeClass.fromJson c j ∧
    (c = ShapeClass.polygonUDT →
      pyGetKey j "indices" = .ok idx →
      pyGetKey j "points" = .ok (.list ptsJson) →
      mapME PointUDT.fromJson ptsJson = .ok decJ →
      inbound_shape_converter j = .ok (.polygon idx (.list decJ)) ∧
        decJ.length = ptsJson.length) := by
  have hmain : inbound_shape_converter j = ShapeClass.fromJson c j := by
    simp [inbound_shape_converter, hpc, pyStr, hres]
  refine ⟨hmain, fun hc hidx hpts hdec => ⟨?_, ?_⟩⟩
  · rw [hmain, hc]
    simp [ShapeClass.fromJson, PolygonUDT.fromJson, hidx, hpts, pyIter, hdec]
  · exact (mapME_ok_get PointUDT.fromJson ptsJson decJ hdec).1

/-- C6 witness: a concrete envelope naming the Polygon codec with
indices `[0]` and one point object, dispatched to a Polygon with the
same indices and a 1-element points list. -/
theorem C6_inbound_dispatch_witness :
    inbound_shape_converter
        (.dict [("pyClass", .str "magellan.types.PolygonUDT"),
                ("indices", .list [.int 0]),
                ("points", .list [.dict [("x", .int 1), ("y", .int 2)]])])
      = .ok (.polygon (.list [.int 0]) (.list [.point (.int 1) (.int 2)])) ∧
    ([PyVal.point (.int 1) (.int 2)]).length
      = ([PyVal.dict [("x", .int 1), ("y", .int 2)]]).length :=
  (C6_inbound_dispatch
      (.dict [("pyClass", .str "magellan.types.PolygonUDT"),
              ("indices", .list [.int 0]),
              ("points", .list [.dict [("x", .int 1), ("y", .int 2)]])])
      "magellan.types.PolygonUDT" .polygonUDT
      (.list [.int 0]) [.dict [("x", .int 1), ("y", .int 2)]]
      [.point (.int 1) (.int 2)] rfl rfl).2 rfl rfl rfl rfl

/-- C7: a Point renders exactly as `"Point (" + str(x) + "," + str(y) +
")"`; a Polygon and a PolyLine with list-valued fields render exactly as
`"Polygon ("` followed by the bracketed comma-joined element renderings
of the indices, a comma, the bracketed comma-joined point renderings,
and `")"` — the PolyLine rendering reuses the literal `"Polygon ("`
prefix verbatim. -/
theorem C7_str_rendering (x y : PyVal) (sx sy : String)
    (is ps : List PyVal) (rs qs : List String)
    (hx : pyStr x = some sx) (hy : pyStr y = some sy)
    (his : pyStrList is = some rs) (hps : pyStrList ps = some qs) :
    pyStr (.point x y) = some ("Point (" ++ sx ++ "," ++ sy ++ ")") ∧
    pyStr (.polygon (.list is) (.list ps))
      = some ("Polygon (" ++ "[" ++ String.intercalate "," rs ++ "]" ++ ","
          ++ "[" ++ String.intercalate "," qs ++ "]" ++ ")") ∧
    pyStr (.polyline (.list is) (.list ps))
      = some ("Polygon (" ++ "[" ++ String.intercalate "," rs ++ "]" ++ ","
          ++ "[" ++ String.intercalate "," qs ++ "]" ++ ")") := by
  refine ⟨?_, ?_, ?_⟩ <;> simp [pyStr, hx, hy, his, hps]

/-- C7 witness: `str(Point(1,2))` is "Point (1,2)" and the polygon and
polyline with indices `[0]` and that single point both render to
"Polygon ([0],[Point (1,2)])". -/
theorem C7_str_rendering_witness :
    pyStr (.point (.int 1) (.int 2)) = some "Point (1,2)" ∧
    pyStr (.polygon (.list [.int 0]) (.list [.point (.int 1) (.int 2)]))
      = some "Polygon ([0],[Point (1,2)])" ∧
    pyStr (.polyline (.list [.int 0]) (.list [.point (.int 1) (.int 2)]))
      = some "Polygon ([0],[Point (1,2)])" :=
  C7_str_rendering (.int 1) (.int 2) "1" "2"
    [.int 0] [.point (.int 1) (.int 2)] ["0"] ["Point (1,2)"]
    rfl rfl rfl rfl

/-- C8 counterexample: the operations are not all free of output side
effects and global mutation.  `PolyLineUDT.deserialize` executes `print
datum` on every non-native datum of length 3 (its stdout trace is
nonempty), and `jsonValue` mutates the process-wide registration flag on
its first call (the state it returns differs from the state it was given). -/
theorem C8_effects_counterexample :
    (PolyLineUDT.deserialize (.list [.int 3, .list [], .list []])).1
      = [.list [.int 3, .list [], .list []]] ∧
    (PolyLineUDT.deserialize (.list [.int 3, .list [], .list []])).1 ≠ [] ∧
    (Point.jsonValue ⟨false, 0⟩).1 ≠ ⟨false, 0⟩ :=
  ⟨rfl,
   by rw [show (PolyLineUDT.deserialize (.list [.int 3, .list [], .list []])).1
        = [.list [.int 3, .list [], .list []]] from rfl]; simp,
   by decide⟩

/-- C8 (amended): all codec and JSON operations are deterministic pure
functions of their input and the registration state, with exactly two
effects: `PolyLineUDT.deserialize` prints the datum (a stray debug
`print`) precisely when it is given a non-native datum of length 3, and
`jsonValue` applies the one-time registration step to the process state —
an idempotent step, so no state change happens after the first call. -/
theorem C8_effects_amended (datum : PyVal) (s : RegState) :
    (PolyLineUDT.deserialize datum).1
      = (if isPolylineVal datum = false ∧ pyLen datum = some 3
          then [datum] else []) ∧
    (Point.jsonValue s).1 = Shape.registerPicklers s ∧
    (Polygon.jsonValue s).1 = Shape.registerPicklers s ∧
    (PolyLine.jsonValue s).1 = Shape.registerPicklers s ∧
    Shape.registerPicklers (Shape.registerPicklers s) = Shape.registerPicklers s := by
  refine ⟨?_, rfl, rfl, rfl, ?_⟩
  · cases datum <;>
      simp [PolyLineUDT.deserialize, pyLen, isPolylineVal] <;>
      (try split) <;> simp_all
  · cases hs : s.initialized <;>
      simp [Shape.registerPicklers, hs]

/-- C9: the registration hook consults a single class-level flag shared
by all shape variants (`Point.__initialized__`): starting from an
uninitialized process, any positive number of invocations performs the
underlying cross-runtime registration exactly once (the first invocation
performs it and sets the flag), and while the flag is set an invocation
performs no registration and leaves the state untouched. -/
theorem C9_register_once (n : Nat) (hn : 0 < n) (s : RegState)
    (hs : s.initialized = true) :
    (Shape.registerPicklers^[n] ⟨false, 0⟩).registrations = 1 ∧
    Shape.registerPicklers s = s := by
  have hfix : ∀ (m : Nat) (s2 : RegState), s2.initialized = true →
      Shape.registerPicklers^[m] s2 = s2 := by
    intro m
    induction m with
    | zero => intro s2 _; rfl
    | succ k ih =>
        intro s2 h2
        rw [Function.iterate_succ_apply]
        have hstep : Shape.registerPicklers s2 = s2 := by
          simp [Shape.registerPicklers, h2]
        rw [hstep]
        exact ih s2 h2
  constructor
  · obtain ⟨m, rfl⟩ := Nat.exists_eq_succ_of_ne_zero (Nat.pos_iff_ne_zero.mp hn)
    rw [Function.iterate_succ_apply]
    rw [show Shape.registerPicklers ⟨false, 0⟩ = ⟨true, 1⟩ from rfl]
    rw [hfix m ⟨true, 1⟩ rfl]
  · simp [Shape.registerPicklers, hs]

/-- C9 witness: three invocations from a fresh process state register
exactly once, and an invocation on an initialized state is a no-op. -/
theorem C9_register_once_witness :
    (Shape.registerPicklers^[3] ⟨false, 0⟩).registrations = 1 ∧
    Shape.registerPicklers ⟨true, 1⟩ = ⟨true, 1⟩ :=
  C9_register_once 3 (by decide) ⟨true, 1⟩ rfl

/-- C10: the PolyLine and Polygon codecs validate none of the data-model
invariants: any triple with the correct tag and arity whose point
entries decode deserializes successfully — whatever the indices value
and however few points there are — and `fromJson` succeeds on any
mapping carrying an `indices` key and a `points` array of decodable
point objects, with no partition, ring-size or closedness check. -/
theorem C10_no_invariant_validation (idx : PyVal) (pts dec : List PyVal)
    (j idxJ : PyVal) (ptsJson decJ : List PyVal)
    (hdes : mapME PointUDT.deserialize pts = .ok dec)
    (hidx : pyGetKey j "indices" = .ok idxJ)
    (hpts : pyGetKey j "points" = .ok (.list ptsJson))
    (hdec : mapME PointUDT.fromJson ptsJson = .ok decJ) :
    PolygonUDT.deserialize (.list [.int 5, idx, .list pts])
      = .ok (.polygon idx (.list dec)) ∧
    (PolyLineUDT.deserialize (.list [.int 3, idx, .list pts])).2
      = .ok (.polyline idx (.list dec)) ∧
    PolygonUDT.fromJson j = .ok (.polygon idxJ (.list decJ)) ∧
    PolyLineUDT.fromJson j = .ok (.polyline idxJ (.list decJ)) := by
  refine ⟨?_, ?_, ?_, ?_⟩
  · simp [PolygonUDT.deserialize, pyLen, pyGetItem, pyEq, pyIter, hdes]
  · simp [PolyLineUDT.deserialize, pyLen, pyGetItem, pyEq, pyIter, hdes]
  · simp [PolygonUDT.fromJson, hidx, hpts, pyIter, hdec]
  · simp [PolyLineUDT.fromJson, hidx, hpts, pyIter, hdec]

/-- C10 witness: a Polygon built from a single unclosed 1-point "ring"
with decreasing indices `[9, 2]` (violating the partition, ring-size
and closedness invariants) deserializes successfully, and `fromJson`
accepts a mapping with the same violations (an empty points array). -/
theorem C10_no_invariant_validation_witness :
    PolygonUDT.deserialize
        (.list [.int 5, .list [.int 9, .int 2],
          .list [.list [.int 1, .int 0, .int 0]]])
      = .ok (.polygon (.list [.int 9, .int 2])
          (.list [.point (.int 0) (.int 0)])) ∧
    PolygonUDT.fromJson
        (.dict [("indices", .list [.int 9, .int 2]), ("points", .list [])])
      = .ok (.polygon (.list [.int 9, .int 2]) (.list [])) :=
  ⟨(C10_no_invariant_validation (.list [.int 9, .int 2])
      [.list [.int 1, .int 0, .int 0]] [.point (.int 0) (.int 0)]
      (.dict [("indices", .list [.int 9, .int 2]), ("points", .list [])])
      (.list [.int 9, .int 2]) [] []
      rfl rfl rfl rfl).1,
   (C10_no_invariant_validation (.list [.int 9, .int 2])
      [.list [.int 1, .int 0, .int 0]] [.point (.int 0) (.int 0)]
      (.dict [("indices", .list [.int 9, .int 2]), ("points", .list [])])
      (.list [.int 9, .int 2]) [] []
      rfl rfl rfl rfl).2.2.1⟩

end Magellan
